import Mathlib

/-!
Verification of the promo-intelligence scenario pipeline.

Shallow embedding of the core engines of the repository
(`backend/engines/uplift_elasticity_engine.py`,
`backend/engines/forecast_baseline_engine.py`,
`backend/engines/scenario_evaluation_engine.py`,
`backend/engines/validation_engine.py`,
`backend/engines/scenario_optimization_engine.py`,
`backend/api/routes/optimization.py`).

Conventions of the embedding:
- Python floats are modelled as rationals (`ℚ`).
- Calendar dates are modelled as integers (day numbers); the day of week of
  day `d` is `d % 7`, so grouping by weekday name in the source corresponds
  to grouping by residue modulo 7.
- Python dicts are modelled as association lists with first-match lookup
  (`lookupKey`); dict insertion order is preserved by appending new keys.
- `None` becomes `Option.none`; a raised exception becomes `Except.error`.
-/

/-- ASCII upper-casing of one character; models Python `str.upper` on the
ASCII department/channel keys the repository uses. -/
def asciiUpperChar (c : Char) : Char :=
  if 'a' ≤ c ∧ c ≤ 'z' then Char.ofNat (c.toNat - 32) else c

/-- ASCII lower-casing of one character; models Python `str.lower`. -/
def asciiLowerChar (c : Char) : Char :=
  if 'A' ≤ c ∧ c ≤ 'Z' then Char.ofNat (c.toNat + 32) else c

/-- ASCII upper-casing of a string (Python `str.upper`). -/
def strUpper (s : String) : String := String.mk (s.data.map asciiUpperChar)

/-- ASCII lower-casing of a string (Python `str.lower`). -/
def strLower (s : String) : String := String.mk (s.data.map asciiLowerChar)

/-- First-match lookup in an association list; models Python `dict.get`. -/
def lookupKey {κ β : Type} [DecidableEq κ] : List (κ × β) → κ → Option β
  | [], _ => none
  | kv :: rest, key => if kv.1 = key then some kv.2 else lookupKey rest key

/-- Truthiness of an optional Python dict: `None` and `{}` are falsy. -/
def dictTruthy {β : Type} : Option (List (String × β)) → Bool
  | none => false
  | some d => !d.isEmpty

/-- Context passed to uplift estimation (`PromoContext` in `models/schemas.py`):
only the `weather` dict and the `events` list are read by the engines. -/
structure PromoContext where
  weather : Option (List (String × ℚ))
  events : List String
deriving DecidableEq

/-- Elasticity coefficient table of an `UpliftModel`:
department → channel → coefficient. -/
def CoeffTable : Type := List (String × List (String × ℚ))

/-- Coefficient table produced by `build_uplift_model` when no sales-data tool
is attached (`uplift_elasticity_engine.py` lines 166-175): every default
category/channel pair gets the default elasticity 1.5. -/
def default_coefficients : CoeffTable :=
  [("TV", [("online", 3/2), ("store", 3/2)]),
   ("GAMING", [("online", 3/2), ("store", 3/2)]),
   ("AUDIO", [("online", 3/2), ("store", 3/2)])]

/-- The elasticity lookup of `estimate_uplift` (line 73):
`coefficients.get(category.upper(), {}).get(channel.lower(), 1.5)`. -/
def elasticity_lookup (coefficients : CoeffTable) (category channel : String) : ℚ :=
  (lookupKey ((lookupKey coefficients (strUpper category)).getD []) (strLower channel)).getD (3/2)

/-- Embedding of `UpliftElasticityEngine.estimate_uplift`
(`uplift_elasticity_engine.py` lines 44-97). `discount` is a fraction. -/
def estimate_uplift (coefficients : CoeffTable) (category channel : String)
    (discount : ℚ) (context : Option PromoContext) : ℚ :=
  let base_coefficient := elasticity_lookup coefficients category channel
  let uplift := discount * base_coefficient * (1 - discount * (3/10))
  let uplift :=
    if discount > 3/10 then uplift * (8/10)
    else if discount > 2/10 then uplift * (9/10)
    else uplift
  let uplift :=
    match context with
    | none => uplift
    | some ctx =>
      let uplift :=
        if dictTruthy ctx.weather then
          uplift * ((lookupKey (ctx.weather.getD []) "impact_factor").getD 1)
        else uplift
      if !ctx.events.isEmpty then
        uplift * (1 + min ((ctx.events.length : ℚ) * (5/100)) (2/10))
      else uplift
  max 0 uplift

/-- The discount-band dampening factor as the spec states it. -/
def band_factor (discount : ℚ) : ℚ :=
  if discount > 3/10 then 8/10 else if discount > 2/10 then 9/10 else 1

/-- The context multiplier as the spec states it. -/
def context_factor : Option PromoContext → ℚ
  | none => 1
  | some ctx =>
    (if dictTruthy ctx.weather then
      (lookupKey (ctx.weather.getD []) "impact_factor").getD 1
     else 1)
    * (if !ctx.events.isEmpty then
        1 + min ((ctx.events.length : ℚ) * (5/100)) (2/10)
       else 1)

/-- One row of `get_daily_sales` output (`tools/sales_data_tool.py`):
date, sales, margin, units. -/
structure HistRow where
  date : ℤ
  sales_value : ℚ
  margin_value : ℚ
  units : ℚ
deriving DecidableEq

/-- One day's baseline projection (`{sales, margin, units}`). -/
structure DayProj where
  sales : ℚ
  margin : ℚ
  units : ℚ
deriving DecidableEq

/-- Inclusive date range (`DateRange` in `models/schemas.py`). -/
structure DateRange where
  start_date : ℤ
  end_date : ℤ
deriving DecidableEq

/-- Embedding of `BaselineForecast` (`models/schemas.py`). -/
structure BaselineForecast where
  date_range : DateRange
  daily_projections : List (ℤ × DayProj)
  total_sales : ℚ
  total_margin : ℚ
  total_units : ℚ
  gap_vs_target : Option (ℚ × ℚ × ℚ)
deriving DecidableEq

/-- Error raised by `calculate_baseline` when no historical rows exist
(the spec's `DataUnavailable`; the source raises `ValueError` with message
"No historical sales data available for the requested date range"). -/
inductive BaselineError where
  | DataUnavailable
deriving DecidableEq

/-- The calendar days from `s` to `e` inclusive
(`pd.date_range(start, end, freq="D")`; empty when `s > e`). -/
def daysInRange (s e : ℤ) : List ℤ :=
  (List.range (e - s + 1).toNat).map (fun i => s + (i : ℤ))

/-- Arithmetic mean of a list of rationals (pandas `.mean()`); only ever
applied to non-empty lists by the engine. -/
def meanQ (xs : List ℚ) : ℚ :=
  if xs.length = 0 then 0 else xs.sum / (xs.length : ℚ)

/-- The historical rows whose date falls on weekday residue `r`
(the source groups by `day_name()`; day names correspond to residues mod 7). -/
def rowsForDow (hist : List HistRow) (r : ℤ) : List HistRow :=
  hist.filter (fun row => row.date % 7 = r)

/-- The projection `calculate_baseline` assigns to day `d`
(`forecast_baseline_engine.py` lines 78-89): the day-of-week mean when that
weekday was observed in history, else the overall mean. -/
def baseline_day (hist : List HistRow) (d : ℤ) : DayProj :=
  let rows := rowsForDow hist (d % 7)
  if rows.isEmpty then
    { sales := meanQ (hist.map (fun row => row.sales_value))
      margin := meanQ (hist.map (fun row => row.margin_value))
      units := meanQ (hist.map (fun row => row.units)) }
  else
    { sales := meanQ (rows.map (fun row => row.sales_value))
      margin := meanQ (rows.map (fun row => row.margin_value))
      units := meanQ (rows.map (fun row => row.units)) }

/-- The accumulation loop of `calculate_baseline` (lines 78-93): walk the days
in order, append each day's projection and add it into the running totals
`(projections, total_sales, total_margin, total_units)`. -/
def baselineAccum (hist : List HistRow) :
    List ℤ → List (ℤ × DayProj) × ℚ × ℚ × ℚ → List (ℤ × DayProj) × ℚ × ℚ × ℚ
  | [], acc => acc
  | d :: ds, (projs, ts, tm, tu) =>
      let p := baseline_day hist d
      baselineAccum hist ds (projs ++ [(d, p)], ts + p.sales, tm + p.margin, tu + p.units)

/-- Embedding of `ForecastBaselineEngine.calculate_baseline`
(`forecast_baseline_engine.py` lines 44-112), with the historical rows for
the window passed explicitly (the tool call or the `historical_data`
argument) and no targets tool attached, so `gap_vs_target` stays `none`. -/
def calculate_baseline (date_range : ℤ × ℤ) (hist : List HistRow) :
    Except BaselineError BaselineForecast :=
  if hist.isEmpty then .error .DataUnavailable
  else
    let days := daysInRange date_range.1 date_range.2
    let res := baselineAccum hist days ([], 0, 0, 0)
    .ok
      { date_range := ⟨date_range.1, date_range.2⟩
        daily_projections := res.1
        total_sales := res.2.1
        total_margin := res.2.2.1
        total_units := res.2.2.2
        gap_vs_target := none }

/-- Embedding of `PromoScenario` (`models/schemas.py`); `metadata` keeps only
the string-list entries the engines read (`mandatory_elements`). -/
structure PromoScenario where
  id : Option String
  name : String
  date_range : DateRange
  departments : List String
  channels : List String
  discount_percentage : ℚ
  metadata : List (String × List String)
deriving DecidableEq

/-- One `{sales, margin, units, ebit}` breakdown entry of a `ScenarioKPI`. -/
structure BreakdownEntry where
  sales : ℚ
  margin : ℚ
  units : ℚ
  ebit : ℚ
deriving DecidableEq

/-- The `comparison_vs_baseline` dict of a `ScenarioKPI`. -/
structure Comparison where
  sales_delta : ℚ
  margin_delta : ℚ
  units_delta : ℚ
  sales_pct_change : ℚ
  margin_pct_change : ℚ
deriving DecidableEq

/-- Embedding of `ScenarioKPI` (`models/schemas.py`); `breakdown_by_segment`
is always `None` in the source and is omitted. -/
structure ScenarioKPI where
  scenario_id : String
  total_sales : ℚ
  total_margin : ℚ
  total_ebit : ℚ
  total_units : ℚ
  breakdown_by_channel : List (String × BreakdownEntry)
  breakdown_by_department : List (String × BreakdownEntry)
  comparison_vs_baseline : Comparison
deriving DecidableEq

/-- Add one day-cell's sales/margin/units into a breakdown dict, initializing
the key at the end of the dict when absent (Python dict insertion order). -/
def updateBreakdown : List (String × BreakdownEntry) → String → ℚ → ℚ → ℚ →
    List (String × BreakdownEntry)
  | [], key, ds, dm, du => [(key, { sales := ds, margin := dm, units := du, ebit := 0 })]
  | kv :: rest, key, ds, dm, du =>
      if kv.1 = key then
        (kv.1, { kv.2 with sales := kv.2.sales + ds, margin := kv.2.margin + dm,
                            units := kv.2.units + du }) :: rest
      else kv :: updateBreakdown rest key ds dm du

/-- Running state of the `evaluate_scenario` loops: totals and the two
breakdown dicts. -/
structure EvalState where
  total_sales : ℚ
  total_margin : ℚ
  total_units : ℚ
  by_channel : List (String × BreakdownEntry)
  by_department : List (String × BreakdownEntry)
deriving DecidableEq

/-- The body of the inner department×channel loop of `evaluate_scenario`
(`scenario_evaluation_engine.py` lines 94-131) for one `(dept, channel)` cell
of one day. -/
def evalCell (scenario : PromoScenario) (coefficients : CoeffTable)
    (context : Option PromoContext) (day_baseline : DayProj)
    (dept channel : String) (st : EvalState) : EvalState :=
  let uplift_pct := estimate_uplift coefficients dept channel
    (scenario.discount_percentage / 100) context
  let dept_factor : ℚ := if !scenario.departments.isEmpty then
    1 / (scenario.departments.length : ℚ) else 1
  let channel_factor : ℚ := if !scenario.channels.isEmpty then
    1 / (scenario.channels.length : ℚ) else 1
  let day_sales := day_baseline.sales * dept_factor * channel_factor * (1 + uplift_pct)
  let day_margin_pct : ℚ :=
    if day_baseline.sales > 0 then day_baseline.margin / day_baseline.sales else 1/5
  let day_margin_pct := max 0 (day_margin_pct - scenario.discount_percentage / 100)
  let day_margin := day_sales * day_margin_pct
  let day_units := day_baseline.units * dept_factor * channel_factor
    * (1 + uplift_pct * (8/10))
  { total_sales := st.total_sales + day_sales
    total_margin := st.total_margin + day_margin
    total_units := st.total_units + day_units
    by_channel := updateBreakdown st.by_channel channel day_sales day_margin day_units
    by_department := updateBreakdown st.by_department dept day_sales day_margin day_units }

/-- One day of the `evaluate_scenario` while-loop: iterate the departments in
order and, inside each, the channels in order. -/
def evalDay (scenario : PromoScenario) (coefficients : CoeffTable)
    (context : Option PromoContext) (day_baseline : DayProj) (st : EvalState) : EvalState :=
  scenario.departments.foldl
    (fun acc dept =>
      scenario.channels.foldl
        (fun acc2 channel => evalCell scenario coefficients context day_baseline dept channel acc2)
        acc)
    st

/-- Embedding of `ScenarioEvaluationEngine.evaluate_scenario`
(`scenario_evaluation_engine.py` lines 47-174), with the uplift model's
coefficient table passed explicitly. -/
def evaluate_scenario (scenario : PromoScenario) (baseline : BaselineForecast)
    (coefficients : CoeffTable) (context : Option PromoContext) : ScenarioKPI :=
  let days := daysInRange scenario.date_range.start_date scenario.date_range.end_date
  let st := days.foldl
    (fun acc d =>
      let day_baseline := (lookupKey baseline.daily_projections d).getD
        { sales := 0, margin := 0, units := 0 }
      evalDay scenario coefficients context day_baseline acc)
    { total_sales := 0, total_margin := 0, total_units := 0,
      by_channel := [], by_department := [] }
  let fixed_costs := st.total_sales * (1/10)
  let total_ebit := st.total_margin - fixed_costs
  let bc := st.by_channel.map
    (fun kv => (kv.1, { kv.2 with ebit := kv.2.margin - kv.2.sales * (1/10) }))
  let bd := st.by_department.map
    (fun kv => (kv.1, { kv.2 with ebit := kv.2.margin - kv.2.sales * (1/10) }))
  { scenario_id := scenario.id.getD "unknown"
    total_sales := st.total_sales
    total_margin := st.total_margin
    total_ebit := total_ebit
    total_units := st.total_units
    breakdown_by_channel := bc
    breakdown_by_department := bd
    comparison_vs_baseline :=
      { sales_delta := st.total_sales - baseline.total_sales
        margin_delta := st.total_margin - baseline.total_margin
        units_delta := st.total_units - baseline.total_units
        sales_pct_change :=
          if baseline.total_sales > 0 then
            (st.total_sales - baseline.total_sales) / baseline.total_sales * 100
          else 0
        margin_pct_change :=
          if baseline.total_margin > 0 then
            (st.total_margin - baseline.total_margin) / baseline.total_margin * 100
          else 0 } }

/-- Promotional constraints (`Constraints` in `models/schemas.py`); the
optional `budget_limit`/`category_restrictions` fields are never read by the
validation engine and are omitted. -/
structure Constraints where
  max_discount : ℚ
  min_margin : ℚ
deriving DecidableEq

/-- Brand compliance rules (`BrandRules` in `models/schemas.py`); only
`mandatory_elements` is read by the validation engine. -/
structure BrandRules where
  mandatory_elements : List String
deriving DecidableEq

/-- One entry of `ValidationReport.issues`; the source stores formatted
message strings, modelled here as constructors carrying the interpolated
values. -/
inductive Issue where
  | discountExceedsMax (discount maxAllowed : ℚ)
  | marginBelowMin (actual minMargin : ℚ)
  | startAfterEnd
  | noDepartments
  | noChannels
  | negativeSales
  | negativeMargin
  | missingBrandElements (missing : List String)
deriving DecidableEq

/-- One entry of `ValidationReport.fixes`, mirroring `Issue`. -/
inductive FixHint where
  | reduceDiscount (maxAllowed : ℚ)
  | adjustMix (minMargin : ℚ)
  | fixDateRange
  | addDepartment
  | addChannel
  | reviewSales
  | reviewDiscounts
  | addBrandElements
deriving DecidableEq

/-- Embedding of `ValidationReport` (`models/schemas.py`). -/
structure ValidationReport where
  scenario_id : String
  is_valid : Bool
  issues : List Issue
  fixes : List FixHint
  checks_passed : List (String × Bool)
deriving DecidableEq

/-- Embedding of `ValidationEngine.check_discount_limits`
(`validation_engine.py` lines 140-148); `constraints` is what
`config_tool.get_promo_constraints()` returns, `none` when no config tool is
attached (default ceiling 25%). -/
def check_discount_limits (constraints : Option Constraints)
    (scenario : PromoScenario) : Bool :=
  let max_discount : ℚ := match constraints with
    | some c => c.max_discount * 100
    | none => 25
  scenario.discount_percentage ≤ max_discount

/-- Embedding of `ValidationEngine.check_margin_thresholds`
(`validation_engine.py` lines 150-162); default minimum margin 0.18. -/
def check_margin_thresholds (constraints : Option Constraints)
    (kpi : ScenarioKPI) : Bool :=
  if kpi.total_sales = 0 then false
  else
    let min_margin : ℚ := match constraints with
      | some c => c.min_margin
      | none => 9/50
    kpi.total_margin / kpi.total_sales ≥ min_margin

/-- Running `(issues, fixes, checks_passed)` state of `validate_scenario`. -/
structure VState where
  issues : List Issue
  fixes : List FixHint
  checks : List (String × Bool)
deriving DecidableEq

/-- Discount-limit check of `validate_scenario` (lines 61-67). -/
def discountStep (constraints : Option Constraints) (scenario : PromoScenario)
    (st : VState) : VState :=
  let maxAllowed : ℚ := match constraints with
    | some c => c.max_discount * 100
    | none => 25
  if check_discount_limits constraints scenario then
    { st with checks := st.checks ++ [("discount_limits", true)] }
  else
    { issues := st.issues ++ [.discountExceedsMax scenario.discount_percentage maxAllowed]
      fixes := st.fixes ++ [.reduceDiscount maxAllowed]
      checks := st.checks ++ [("discount_limits", false)] }

/-- Margin-threshold check of `validate_scenario` (lines 69-77), performed
only when a KPI is supplied. -/
def marginStep (constraints : Option Constraints) (kpi : Option ScenarioKPI)
    (st : VState) : VState :=
  match kpi with
  | none => st
  | some k =>
    if check_margin_thresholds constraints k then
      { st with checks := st.checks ++ [("margin_thresholds", true)] }
    else
      let minMargin : ℚ := match constraints with
        | some c => c.min_margin
        | none => 9/50
      let actual : ℚ := if k.total_sales > 0 then k.total_margin / k.total_sales else 0
      { issues := st.issues ++ [.marginBelowMin actual minMargin]
        fixes := st.fixes ++ [.adjustMix minMargin]
        checks := st.checks ++ [("margin_thresholds", false)] }

/-- Date-range check of `validate_scenario` (lines 79-85). -/
def dateStep (scenario : PromoScenario) (st : VState) : VState :=
  if scenario.date_range.start_date > scenario.date_range.end_date then
    { issues := st.issues ++ [.startAfterEnd]
      fixes := st.fixes ++ [.fixDateRange]
      checks := st.checks ++ [("date_range", false)] }
  else { st with checks := st.checks ++ [("date_range", true)] }

/-- Non-empty departments check of `validate_scenario` (lines 87-93). -/
def departmentsStep (scenario : PromoScenario) (st : VState) : VState :=
  if scenario.departments.isEmpty then
    { issues := st.issues ++ [.noDepartments]
      fixes := st.fixes ++ [.addDepartment]
      checks := st.checks ++ [("departments", false)] }
  else { st with checks := st.checks ++ [("departments", true)] }

/-- Non-empty channels check of `validate_scenario` (lines 95-100). -/
def channelsStep (scenario : PromoScenario) (st : VState) : VState :=
  if scenario.channels.isEmpty then
    { issues := st.issues ++ [.noChannels]
      fixes := st.fixes ++ [.addChannel]
      checks := st.checks ++ [("channels", false)] }
  else { st with checks := st.checks ++ [("channels", true)] }

/-- KPI plausibility checks of `validate_scenario` (lines 102-116), performed
only when a KPI is supplied. -/
def plausibilityStep (kpi : Option ScenarioKPI) (st : VState) : VState :=
  match kpi with
  | none => st
  | some k =>
    let st :=
      if k.total_sales < 0 then
        { issues := st.issues ++ [.negativeSales]
          fixes := st.fixes ++ [.reviewSales]
          checks := st.checks ++ [("sales_plausibility", false)] }
      else { st with checks := st.checks ++ [("sales_plausibility", true)] }
    if k.total_margin < 0 then
      { issues := st.issues ++ [.negativeMargin]
        fixes := st.fixes ++ [.reviewDiscounts]
        checks := st.checks ++ [("margin_plausibility", false)] }
    else { st with checks := st.checks ++ [("margin_plausibility", true)] }

/-- Brand-compliance check of `validate_scenario` (lines 118-128); `rules_src`
is what `config_tool.get_brand_rules()` returns, `none` when no config tool is
attached — in that case the whole check is skipped. -/
def brandStep (rules_src : Option BrandRules) (scenario : PromoScenario)
    (st : VState) : VState :=
  match rules_src with
  | none => st
  | some br =>
    let present := (lookupKey scenario.metadata "mandatory_elements").getD []
    let missing := br.mandatory_elements.filter (fun m => !present.contains m)
    if missing.isEmpty then
      { st with checks := st.checks ++ [("brand_compliance", true)] }
    else
      { issues := st.issues ++ [.missingBrandElements missing]
        fixes := st.fixes ++ [.addBrandElements]
        checks := st.checks ++ [("brand_compliance", false)] }

/-- Embedding of `ValidationEngine.validate_scenario`
(`validation_engine.py` lines 37-138). `constraints` and `brand_rules` are
the values the engine's config tool yields (`none` without a config tool);
`rules` is the unused third parameter of the source function. -/
def validate_scenario {α : Type} (constraints : Option Constraints)
    (brand_rules : Option BrandRules) (scenario : PromoScenario)
    (kpi : Option ScenarioKPI) ( rules : Option α) : ValidationReport :=
  let st : VState := { issues := [], fixes := [], checks := [] }
  let st := discountStep constraints scenario st
  let st := marginStep constraints kpi st
  let st := dateStep scenario st
  let st := departmentsStep scenario st
  let st := channelsStep scenario st
  let st := plausibilityStep kpi st
  let st := brandStep brand_rules scenario st
  { scenario_id := scenario.id.getD "unknown"
    is_valid := st.issues.length = 0
    issues := st.issues
    fixes := st.fixes
    checks_passed := st.checks }

/-- Weight normalization of `optimize_scenarios`
(`scenario_optimization_engine.py` lines 158-160): an empty objectives dict
falls back to `{sales: 0.6, margin: 0.4}`; the weights are divided by their
sum, with a zero sum replaced by 1. -/
def normalized_weights (objectives : List (String × ℚ)) : List (String × ℚ) :=
  let weights := if objectives.isEmpty then [("sales", 3/5), ("margin", 2/5)] else objectives
  let total0 := (weights.map (fun kv => kv.2)).sum
  let total_weight := if total0 = 0 then 1 else total0
  weights.map (fun kv => (kv.1, kv.2 / total_weight))

/-- The normalized sales weight `weights.get("sales", 0.6)` used by the
scoring loop (lines 168-170). -/
def sales_weight (objectives : List (String × ℚ)) : ℚ :=
  (lookupKey (normalized_weights objectives) "sales").getD (3/5)

/-- The per-candidate score of `optimize_scenarios` (lines 162-173): a
discount proxy, identical in both branches of the `if`. -/
def proxy_score (objectives : List (String × ℚ)) (s : PromoScenario) : ℚ :=
  s.discount_percentage / 100 * sales_weight objectives

/-- Embedding of `ScenarioOptimizationEngine.optimize_scenarios`
(`scenario_optimization_engine.py` lines 135-177). Python's stable
descending `sort` is modelled as a stable insertion sort along the
non-strict descending-score relation. -/
def optimize_scenarios (candidates : List PromoScenario)
    (objectives : List (String × ℚ)) : List PromoScenario :=
  if candidates.isEmpty then []
  else
    let scored := candidates.map (fun s => (s, proxy_score objectives s))
    let sorted := scored.insertionSort (fun a b => b.2 ≤ a.2)
    sorted.map (fun sp => sp.1)

/-- Modelled from the spec (§4.5 scoring/ranking), for comparison with the
source's `optimize_scenarios`: normalize the weights, score each candidate by
`weight_sales * (sales / 1_000_000) + weight_margin * (margin / sales)` with
a zero margin-ratio term when sales is 0, and sort descending; the KPI
evaluation of §4.3 is abstracted as the `kpis` oracle. -/
def optimizeScenariosSpec (kpis : PromoScenario → ℚ × ℚ)
    (candidates : List PromoScenario) (objectives : List (String × ℚ)) : List PromoScenario :=
  let weights := normalized_weights objectives
  let wSales := (lookupKey weights "sales").getD 0
  let wMargin := (lookupKey weights "margin").getD 0
  let score := fun s =>
    wSales * ((kpis s).1 / 1000000)
      + wMargin * (if (kpis s).1 = 0 then 0 else (kpis s).2 / (kpis s).1)
  let scored := candidates.map (fun s => (s, score s))
  let sorted := scored.insertionSort (fun a b => b.2 ≤ a.2)
  sorted.map (fun sp => sp.1)

/-- Domination test of the efficient-frontier loop
(`api/routes/optimization.py` lines 148-150): `other` dominates `k` when its
sales and margin are both at least as large and one is strictly larger. -/
def dominates (other k : ℚ × ℚ) : Bool :=
  decide (k.1 ≤ other.1) && decide (k.2 ≤ other.2)
    && (decide (k.1 < other.1) || decide (k.2 < other.2))

/-- Embedding of the Pareto-flag computation of `calculate_frontier`
(`api/routes/optimization.py` lines 141-153): scenario `i` is optimal unless
some other scenario dominates it. -/
def pareto_flags (kpis : List (ℚ × ℚ)) : List Bool :=
  kpis.enum.map
    (fun ik => !(kpis.enum.any (fun jo => decide (jo.1 ≠ ik.1) && dominates jo.2 ik.2)))

/-- Concrete single-day, single-department, single-channel scenario with a
20% discount, used for the end-to-end example. -/
def exScenario : PromoScenario :=
  { id := some "s1", name := "Example", date_range := { start_date := 0, end_date := 0 },
    departments := ["TV"], channels := ["online"], discount_percentage := 20, metadata := [] }

/-- Concrete baseline projection for the example day. -/
def exProj : DayProj := { sales := 100000, margin := 20000, units := 1000 }

/-- Concrete one-day baseline forecast for the end-to-end example. -/
def exBaseline : BaselineForecast :=
  { date_range := { start_date := 0, end_date := 0 },
    daily_projections := [(0, exProj)],
    total_sales := 100000, total_margin := 20000, total_units := 1000, gap_vs_target := none }

/-- Concrete candidate with a 10% discount; over `exBaseline` its evaluated
KPI keeps a positive margin ratio. -/
def exA : PromoScenario :=
  { id := some "a", name := "A", date_range := { start_date := 0, end_date := 0 },
    departments := ["TV"], channels := ["online"], discount_percentage := 10, metadata := [] }

/-- Concrete candidate identical to `exA` except for a 20% discount; over
`exBaseline` its evaluated margin is driven to zero. -/
def exB : PromoScenario :=
  { id := some "b", name := "B", date_range := { start_date := 0, end_date := 0 },
    departments := ["TV"], channels := ["online"], discount_percentage := 20, metadata := [] }

/-- The KPI evaluation of §4.3 for the candidates above: each candidate's
`(total_sales, total_margin)` from `evaluate_scenario` over the shared
baseline `exBaseline` with the default coefficient table and no context. -/
def exEvalKpis : PromoScenario → ℚ × ℚ :=
  fun s => ((evaluate_scenario s exBaseline default_coefficients none).total_sales,
            (evaluate_scenario s exBaseline default_coefficients none).total_margin)

/-- Concrete scenario with a 30% discount for the validator examples. -/
def exS8 : PromoScenario :=
  { id := some "s8", name := "V", date_range := { start_date := 0, end_date := 1 },
    departments := ["TV"], channels := ["online"], discount_percentage := 30, metadata := [] }

/-- Concrete one-row history for the baseline witness. -/
def exRow : HistRow := { date := 0, sales_value := 100, margin_value := 50, units := 10 }

/-- The forecast `calculate_baseline (0, 0) [exRow]` produces. -/
def exF : BaselineForecast :=
  { date_range := { start_date := 0, end_date := 0 },
    daily_projections := [(0, { sales := 100, margin := 50, units := 10 })],
    total_sales := 100, total_margin := 50, total_units := 10, gap_vs_target := none }

/-- Lookup distributes over list append: the first match in the left list
wins, else the right list is searched. -/
theorem lookupKey_append {κ β : Type} [DecidableEq κ] (l₁ l₂ : List (κ × β)) (k : κ) :
    lookupKey (l₁ ++ l₂) k
      = (match lookupKey l₁ k with
         | some v => some v
         | none => lookupKey l₂ k) := by
  induction l₁ with
  | nil => simp [lookupKey]
  | cons kv rest ih =>
    by_cases h : kv.1 = k
    · simp [lookupKey, h]
    · simp [lookupKey, h, ih]

/-- Lookup misses when no entry carries the key. -/
theorem lookupKey_eq_none {κ β : Type} [DecidableEq κ] (l : List (κ × β)) (k : κ)
    (h : ∀ kv ∈ l, kv.1 ≠ k) : lookupKey l k = none := by
  induction l with
  | nil => rfl
  | cons kv rest ih =>
    have hk : kv.1 ≠ k := h kv (List.mem_cons_self kv rest)
    simp only [lookupKey, if_neg hk]
    exact ih (fun x hx => h x (List.mem_cons_of_mem kv hx))

/-- A one-day range contains exactly its single day. -/
theorem daysInRange_self (t : ℤ) : daysInRange t t = [t] := by
  have h1 : List.range (1 : ℤ).toNat = [0] := rfl
  unfold daysInRange
  rw [sub_self, zero_add, h1]
  simp

/-- The baseline accumulation loop appends one projection per day and adds
exactly that projection into each running total. -/
theorem baselineAccum_spec (hist : List HistRow) (days : List ℤ)
    (projs : List (ℤ × DayProj)) (ts tm tu : ℚ) :
    baselineAccum hist days (projs, ts, tm, tu)
      = (projs ++ days.map (fun d => (d, baseline_day hist d)),
         ts + (days.map (fun d => (baseline_day hist d).sales)).sum,
         tm + (days.map (fun d => (baseline_day hist d).margin)).sum,
         tu + (days.map (fun d => (baseline_day hist d).units)).sum) := by
  induction days generalizing projs ts tm tu with
  | nil => simp [baselineAccum]
  | cons d ds ih => simp [baselineAccum, ih, add_assoc]

/-- The discount check appends exactly one `checks_passed` entry and, on
failure, one issue and one fix. -/
theorem discountStep_full (c : Option Constraints) (sc : PromoScenario) (st : VState) :
    discountStep c sc st
      = { issues := st.issues
            ++ (if check_discount_limits c sc then []
                else [Issue.discountExceedsMax sc.discount_percentage
                        (match c with | some cc => cc.max_discount * 100 | none => 25)])
          fixes := st.fixes
            ++ (if check_discount_limits c sc then []
                else [FixHint.reduceDiscount
                        (match c with | some cc => cc.max_discount * 100 | none => 25)])
          checks := st.checks ++ [("discount_limits", check_discount_limits c sc)] } := by
  by_cases h : check_discount_limits c sc <;> simp [discountStep, h]

/-- The margin check appends a `margin_thresholds` entry exactly when a KPI
is supplied, extending issues and fixes by appends. -/
theorem marginStep_full (c : Option Constraints) (kpi : Option ScenarioKPI) (st : VState) :
    ∃ di df,
      marginStep c kpi st
        = { issues := st.issues ++ di
            fixes := st.fixes ++ df
            checks := st.checks
              ++ (match kpi with
                  | none => []
                  | some k => [("margin_thresholds", check_margin_thresholds c k)]) } := by
  cases kpi with
  | none => exact ⟨[], [], by simp [marginStep]⟩
  | some k =>
    by_cases h : check_margin_thresholds c k
    · exact ⟨[], [], by simp [marginStep, h]⟩
    · refine ⟨[Issue.marginBelowMin (if k.total_sales > 0 then k.total_margin / k.total_sales else 0)
          (match c with | some cc => cc.min_margin | none => 9/50)],
        [FixHint.adjustMix (match c with | some cc => cc.min_margin | none => 9/50)], ?_⟩
      cases c <;> simp [marginStep, h]

/-- The date check only appends, and only ever under the key `date_range`. -/
theorem dateStep_full (sc : PromoScenario) (st : VState) :
    ∃ di df dc,
      dateStep sc st
        = { issues := st.issues ++ di
            fixes := st.fixes ++ df
            checks := st.checks ++ dc }
      ∧ ∀ kv ∈ dc, kv.1 = "date_range" := by
  by_cases h : sc.date_range.start_date > sc.date_range.end_date
  · exact ⟨[.startAfterEnd], [.fixDateRange], [("date_range", false)],
      by simp [dateStep, h], by simp⟩
  · exact ⟨[], [], [("date_range", true)], by simp [dateStep, h], by simp⟩

/-- The departments check only appends, under the key `departments`. -/
theorem departmentsStep_full (sc : PromoScenario) (st : VState) :
    ∃ di df dc,
      departmentsStep sc st
        = { issues := st.issues ++ di
            fixes := st.fixes ++ df
            checks := st.checks ++ dc }
      ∧ ∀ kv ∈ dc, kv.1 = "departments" := by
  by_cases h : sc.departments.isEmpty
  · exact ⟨[.noDepartments], [.addDepartment], [("departments", false)],
      by simp [departmentsStep, h], by simp⟩
  · exact ⟨[], [], [("departments", true)], by simp [departmentsStep, h], by simp⟩

/-- The channels check only appends, under the key `channels`. -/
theorem channelsStep_full (sc : PromoScenario) (st : VState) :
    ∃ di df dc,
      channelsStep sc st
        = { issues := st.issues ++ di
            fixes := st.fixes ++ df
            checks := st.checks ++ dc }
      ∧ ∀ kv ∈ dc, kv.1 = "channels" := by
  by_cases h : sc.channels.isEmpty
  · exact ⟨[.noChannels], [.addChannel], [("channels", false)],
      by simp [channelsStep, h], by simp⟩
  · exact ⟨[], [], [("channels", true)], by simp [channelsStep, h], by simp⟩

/-- The KPI plausibility checks only append, under the two plausibility
keys. -/
theorem plausibilityStep_full (kpi : Option ScenarioKPI) (st : VState) :
    ∃ di df dc,
      plausibilityStep kpi st
        = { issues := st.issues ++ di
            fixes := st.fixes ++ df
            checks := st.checks ++ dc }
      ∧ ∀ kv ∈ dc, kv.1 = "sales_plausibility" ∨ kv.1 = "margin_plausibility" := by
  cases kpi with
  | none => exact ⟨[], [], [], by simp [plausibilityStep], by simp⟩
  | some k =>
    by_cases h1 : k.total_sales < 0 <;> by_cases h2 : k.total_margin < 0
    · exact ⟨[.negativeSales, .negativeMargin], [.reviewSales, .reviewDiscounts],
        [("sales_plausibility", false), ("margin_plausibility", false)],
        by simp [plausibilityStep, h1, h2], by simp⟩
    · exact ⟨[.negativeSales], [.reviewSales],
        [("sales_plausibility", false), ("margin_plausibility", true)],
        by simp [plausibilityStep, h1, h2], by simp⟩
    · exact ⟨[.negativeMargin], [.reviewDiscounts],
        [("sales_plausibility", true), ("margin_plausibility", false)],
        by simp [plausibilityStep, h1, h2], by simp⟩
    · exact ⟨[], [], [("sales_plausibility", true), ("margin_plausibility", true)],
        by simp [plausibilityStep, h1, h2], by simp⟩

/-- The brand check only appends, under the key `brand_compliance`; with no
brand rules it is the identity. -/
theorem brandStep_full (b : Option BrandRules) (sc : PromoScenario) (st : VState) :
    ∃ di df dc,
      brandStep b sc st
        = { issues := st.issues ++ di
            fixes := st.fixes ++ df
            checks := st.checks ++ dc }
      ∧ ∀ kv ∈ dc, kv.1 = "brand_compliance" := by
  cases b with
  | none => exact ⟨[], [], [], by simp [brandStep], by simp⟩
  | some br =>
    by_cases h : (br.mandatory_elements.filter
        (fun m => !((lookupKey sc.metadata "mandatory_elements").getD []).contains m)).isEmpty
    · refine ⟨[], [], [("brand_compliance", true)], ?_, by simp⟩
      simp only [brandStep]
      rw [if_pos h]
      simp only [List.append_nil]
    · refine ⟨[.missingBrandElements (br.mandatory_elements.filter
          (fun m => !((lookupKey sc.metadata "mandatory_elements").getD []).contains m))],
        [.addBrandElements], [("brand_compliance", false)], ?_, by simp⟩
      simp only [brandStep]
      rw [if_neg h]

/-- Pareto flags are computed for every scenario. -/
theorem pareto_flags_length (kpis : List (ℚ × ℚ)) :
    (pareto_flags kpis).length = kpis.length := by
  simp [pareto_flags, List.enum_length]

/-- C1 counterexample: on two concrete candidates over a shared baseline,
with margin-heavy weights `{sales: 1, margin: 9}`, the KPIs really produced
by the §4.3 evaluation are `(114550, 11455)` for the 10%-discount candidate
and `(128200, 0)` for the 20%-discount one (the larger discount erases the
margin ratio), so the spec's KPI-weighted score ranks the 10% candidate
first (0.101455 vs 0.01282); `optimize_scenarios` instead scores by the
discount proxy `(discount / 100) * weight_sales`, never evaluating KPIs,
and returns the 20% candidate first. -/
theorem optimize_scenarios_kpi_score_counterexample :
    exEvalKpis exA = (114550, 11455)
    ∧ exEvalKpis exB = (128200, 0)
    ∧ optimize_scenarios [exA, exB] [("sales", 1), ("margin", 9)] = [exB, exA]
    ∧ optimizeScenariosSpec exEvalKpis [exA, exB] [("sales", 1), ("margin", 9)] = [exA, exB]
    ∧ ([exB, exA] : List PromoScenario) ≠ [exA, exB] := by
  have hc : elasticity_lookup default_coefficients "TV" "online" = 3/2 := by
    have h1 : strUpper "TV" = "TV" := by decide
    have h2 : strLower "online" = "online" := by decide
    simp [elasticity_lookup, default_coefficients, lookupKey, h1, h2]
  have hb : lookupKey exBaseline.daily_projections 0 = some exProj := by
    simp [exBaseline, lookupKey]
  have huA : estimate_uplift default_coefficients "TV" "online" ((10 : ℚ)/100) none
      = 291/2000 := by
    unfold estimate_uplift
    rw [hc]
    norm_num
  have huB : estimate_uplift default_coefficients "TV" "online" ((20 : ℚ)/100) none
      = 141/500 := by
    unfold estimate_uplift
    rw [hc]
    norm_num
  have hA : exEvalKpis exA = (114550, 11455) := by
    simp only [exEvalKpis, evaluate_scenario, exA, daysInRange_self, List.foldl_cons,
      List.foldl_nil, hb, Option.getD_some, evalDay, evalCell, huA]
    norm_num [exProj]
  have hB : exEvalKpis exB = (128200, 0) := by
    simp only [exEvalKpis, evaluate_scenario, exB, daysInRange_self, List.foldl_cons,
      List.foldl_nil, hb, Option.getD_some, evalDay, evalCell, huB]
    norm_num [exProj]
  refine ⟨hA, hB, ?_, ?_, ?_⟩
  · norm_num [optimize_scenarios, proxy_score, sales_weight, normalized_weights, lookupKey,
      exA, exB, List.insertionSort, List.orderedInsert]
  · have hsm : ("sales" : String) ≠ "margin" := by decide
    norm_num [optimizeScenariosSpec, normalized_weights, lookupKey, hA, hB, hsm,
      List.insertionSort, List.orderedInsert]
  · simp [exA, exB]

/-- C1 (amended): `optimize_scenarios` normalizes the objective weights to
sum to 1 (an empty map falls back to sales 0.6 / margin 0.4, and a zero sum
is replaced by 1), scores every candidate by the proxy
`(discount_percentage / 100) * normalized_sales_weight` — the normalized
sales weight with default 0.6 — without evaluating KPIs, and returns a
permutation of the candidates sorted in descending order of that proxy
score. -/
theorem optimize_scenarios_proxy_ranked (candidates : List PromoScenario)
    (objectives : List (String × ℚ)) :
    (optimize_scenarios candidates objectives).Perm candidates
    ∧ (optimize_scenarios candidates objectives).Pairwise
        (fun a b => proxy_score objectives b ≤ proxy_score objectives a) := by
  by_cases h : candidates.isEmpty
  · have h0 : candidates = [] := by
      cases candidates with
      | nil => rfl
      | cons x xs => simp [List.isEmpty] at h
    subst h0
    simp [optimize_scenarios]
  · unfold optimize_scenarios
    rw [if_neg (by simpa using h)]
    have hperm := List.perm_insertionSort
      (fun a b : PromoScenario × ℚ => b.2 ≤ a.2)
      (candidates.map (fun s => (s, proxy_score objectives s)))
    constructor
    · have hmapped := hperm.map (fun sp : PromoScenario × ℚ => sp.1)
      have he : (candidates.map (fun s => (s, proxy_score objectives s))).map
          (fun sp : PromoScenario × ℚ => sp.1) = candidates := by
        simp [List.map_map, Function.comp_def]
      rw [he] at hmapped
      exact hmapped
    · haveI : IsTotal (PromoScenario × ℚ) (fun a b => b.2 ≤ a.2) :=
        ⟨fun a b => le_total b.2 a.2⟩
      haveI : IsTrans (PromoScenario × ℚ) (fun a b => b.2 ≤ a.2) :=
        ⟨fun a b c hab hbc => le_trans hbc hab⟩
      have hsorted := List.sorted_insertionSort
        (fun a b : PromoScenario × ℚ => b.2 ≤ a.2)
        (candidates.map (fun s => (s, proxy_score objectives s)))
      have hmem : ∀ sp ∈ (candidates.map (fun s => (s, proxy_score objectives s))).insertionSort
          (fun a b : PromoScenario × ℚ => b.2 ≤ a.2),
          sp.2 = proxy_score objectives sp.1 := by
        intro sp hsp
        have hsp2 : sp ∈ candidates.map (fun s => (s, proxy_score objectives s)) :=
          hperm.mem_iff.mp hsp
        rw [List.mem_map] at hsp2
        obtain ⟨s, _, hs⟩ := hsp2
        rw [← hs]
      rw [List.pairwise_map]
      refine List.Pairwise.imp_of_mem ?_ hsorted
      intro a b ha hb hr
      rw [← hmem a ha, ← hmem b hb]
      exact hr

/-- C2: `estimate_uplift` equals `max 0` of the product of the base term
`discount * elasticity * (1 - discount * 0.3)` (with the elasticity looked up
under the upper-cased department and lower-cased channel, default 1.5,
inside `elasticity_lookup`), the discount-band factor (0.8 above 0.3, else
0.9 above 0.2, else 1), and the context factor (weather impact factor when a
weather dict is present, times `1 + min(0.05 * |events|, 0.2)` when the
event list is non-empty); in particular the result is never negative. -/
theorem estimate_uplift_spec (coefficients : CoeffTable) (category channel : String)
    (discount : ℚ) (context : Option PromoContext) :
    estimate_uplift coefficients category channel discount context
      = max 0 (discount * elasticity_lookup coefficients category channel
          * (1 - discount * (3/10)) * band_factor discount * context_factor context)
    ∧ 0 ≤ estimate_uplift coefficients category channel discount context := by
  constructor
  · cases context with
    | none =>
      simp only [estimate_uplift, band_factor, context_factor]
      split_ifs
      all_goals congr 1
      all_goals ring
    | some x =>
      simp only [estimate_uplift, band_factor, context_factor]
      split_ifs
      all_goals congr 1
      all_goals ring
  · simp only [estimate_uplift]
    exact le_max_left 0 _

/-- C3: scenario `i` of the efficient-frontier computation is marked
non-optimal exactly when some other scenario `j` has sales and margin both at
least as large with one strict; and when every coordinate equals scenario
`i`'s, scenario `i` is marked optimal (ties never dominate). -/
theorem pareto_flag_iff (kpis : List (ℚ × ℚ)) (i : ℕ) (hi : i < kpis.length) :
    ((pareto_flags kpis).getD i true = false ↔
      ∃ j, j < kpis.length ∧ j ≠ i
        ∧ dominates (kpis.getD j (0, 0)) (kpis.getD i (0, 0)) = true)
    ∧ ((∀ x ∈ kpis, x = kpis.getD i (0, 0)) →
        (pareto_flags kpis).getD i true = true) := by
  have hi' : i < (pareto_flags kpis).length := by rw [pareto_flags_length]; exact hi
  have hget : (pareto_flags kpis).getD i true
      = !(kpis.enum.any fun jo =>
            decide (jo.1 ≠ i) && dominates jo.2 (kpis.getD i (0, 0))) := by
    rw [List.getD_eq_getElem _ _ hi']
    unfold pareto_flags
    rw [List.getElem_map, List.getElem_enum, List.getD_eq_getElem _ _ hi]
  have hany : (kpis.enum.any fun jo =>
        decide (jo.1 ≠ i) && dominates jo.2 (kpis.getD i (0, 0))) = true
      ↔ ∃ j, j < kpis.length ∧ j ≠ i
          ∧ dominates (kpis.getD j (0, 0)) (kpis.getD i (0, 0)) = true := by
    rw [List.any_eq_true]
    constructor
    · rintro ⟨jo, hmem, hp⟩
      rw [List.mem_enum_iff_getElem?] at hmem
      have hj : jo.1 < kpis.length := by
        by_contra hcon
        rw [List.getElem?_eq_none (le_of_not_lt hcon)] at hmem
        cases hmem
      have hv : kpis.getD jo.1 (0, 0) = jo.2 := by
        rw [List.getD_eq_getElem _ _ hj]
        rw [List.getElem?_eq_getElem hj] at hmem
        exact Option.some.inj hmem
      simp only [Bool.and_eq_true, decide_eq_true_iff] at hp
      exact ⟨jo.1, hj, hp.1, by rw [hv]; exact hp.2⟩
    · rintro ⟨j, hj, hne, hdom⟩
      refine ⟨(j, kpis.getD j (0, 0)), ?_, ?_⟩
      · rw [List.mem_enum_iff_getElem?]
        rw [List.getD_eq_getElem _ _ hj]
        exact List.getElem?_eq_getElem hj
      · simp only [Bool.and_eq_true, decide_eq_true_iff]
        exact ⟨hne, hdom⟩
  constructor
  · rw [hget]
    rw [Bool.not_eq_false']
    exact hany
  · intro hall
    rw [hget]
    have hfalse : (kpis.enum.any fun jo =>
        decide (jo.1 ≠ i) && dominates jo.2 (kpis.getD i (0, 0))) = false := by
      rw [List.any_eq_false]
      intro jo hmem
      rw [List.mem_enum_iff_getElem?] at hmem
      have hj : jo.1 < kpis.length := by
        by_contra hcon
        rw [List.getElem?_eq_none (le_of_not_lt hcon)] at hmem
        cases hmem
      have hjv : jo.2 ∈ kpis := by
        rw [List.getElem?_eq_getElem hj] at hmem
        rw [← Option.some.inj hmem]
        exact List.getElem_mem hj
      have h2 : jo.2 = kpis.getD i (0, 0) := hall jo.2 hjv
      have hdd : dominates (kpis.getD i (0, 0)) (kpis.getD i (0, 0)) = false := by
        simp [dominates]
      rw [h2, hdd]
      simp
    rw [hfalse]
    rfl

/-- C3 witness: at the spec's example coordinates `(100k, 20k)` and
`(120k, 25k)`, scenario 0 is dominated. -/
theorem pareto_flag_iff_witness :
    ((pareto_flags [((100000 : ℚ), (20000 : ℚ)), (120000, 25000)]).getD 0 true = false ↔
      ∃ j, j < ([((100000 : ℚ), (20000 : ℚ)), (120000, 25000)] : List (ℚ × ℚ)).length ∧ j ≠ 0
        ∧ dominates
            (([((100000 : ℚ), (20000 : ℚ)), (120000, 25000)] : List (ℚ × ℚ)).getD j (0, 0))
            (([((100000 : ℚ), (20000 : ℚ)), (120000, 25000)] : List (ℚ × ℚ)).getD 0 (0, 0))
            = true)
    ∧ ((∀ x ∈ ([((100000 : ℚ), (20000 : ℚ)), (120000, 25000)] : List (ℚ × ℚ)),
          x = ([((100000 : ℚ), (20000 : ℚ)), (120000, 25000)] : List (ℚ × ℚ)).getD 0 (0, 0)) →
        (pareto_flags [((100000 : ℚ), (20000 : ℚ)), (120000, 25000)]).getD 0 true = true) :=
  pareto_flag_iff [((100000 : ℚ), (20000 : ℚ)), (120000, 25000)] 0 (by norm_num)

/-- C4: when `calculate_baseline` succeeds, each of `total_sales`,
`total_margin` and `total_units` equals exactly the sum of the corresponding
component over all daily projections of the returned forecast. -/
theorem baseline_totals_eq_sums (date_range : ℤ × ℤ) (hist : List HistRow)
    (f : BaselineForecast) (hf : calculate_baseline date_range hist = .ok f) :
    f.total_sales = (f.daily_projections.map (fun p => p.2.sales)).sum
    ∧ f.total_margin = (f.daily_projections.map (fun p => p.2.margin)).sum
    ∧ f.total_units = (f.daily_projections.map (fun p => p.2.units)).sum := by
  unfold calculate_baseline at hf
  by_cases h0 : hist.isEmpty
  · simp [h0] at hf
  · simp only [h0, Bool.false_eq_true, if_false, Except.ok.injEq] at hf
    subst hf
    rw [baselineAccum_spec]
    simp [List.map_map, Function.comp_def]

/-- C4 witness: the totals equation holds for the concrete one-row,
one-day forecast. -/
theorem baseline_totals_eq_sums_witness :
    exF.total_sales = (exF.daily_projections.map (fun p => p.2.sales)).sum
    ∧ exF.total_margin = (exF.daily_projections.map (fun p => p.2.margin)).sum
    ∧ exF.total_units = (exF.daily_projections.map (fun p => p.2.units)).sum :=
  baseline_totals_eq_sums (0, 0) [exRow] exF
    (by norm_num [calculate_baseline, daysInRange_self, baselineAccum, baseline_day,
      rowsForDow, meanQ, exRow, exF])

/-- C5: when the historical-data source yields zero rows, `calculate_baseline`
fails with the `DataUnavailable` error instead of returning a forecast. -/
theorem calculate_baseline_empty (date_range : ℤ × ℤ) (hist : List HistRow)
    (h : hist = []) :
    calculate_baseline date_range hist = .error .DataUnavailable := by
  subst h
  rfl

/-- C5 witness: the empty history fails for a concrete week-long range. -/
theorem calculate_baseline_empty_witness :
    ([] : List HistRow) = [] ∧ calculate_baseline (0, 6) [] = .error .DataUnavailable :=
  ⟨rfl, calculate_baseline_empty (0, 6) [] rfl⟩

/-- C6: every `ScenarioKPI` produced by `evaluate_scenario` satisfies
`total_ebit = total_margin - 0.1 * total_sales`, and every entry of the
channel and department breakdowns satisfies `ebit = margin - 0.1 * sales`
for its own margin and sales. -/
theorem evaluate_scenario_ebit (scenario : PromoScenario) (baseline : BaselineForecast)
    (coefficients : CoeffTable) (context : Option PromoContext) :
    (evaluate_scenario scenario baseline coefficients context).total_ebit
      = (evaluate_scenario scenario baseline coefficients context).total_margin
        - (1/10) * (evaluate_scenario scenario baseline coefficients context).total_sales
    ∧ (∀ e ∈ (evaluate_scenario scenario baseline coefficients context).breakdown_by_channel,
        e.2.ebit = e.2.margin - (1/10) * e.2.sales)
    ∧ (∀ e ∈ (evaluate_scenario scenario baseline coefficients context).breakdown_by_department,
        e.2.ebit = e.2.margin - (1/10) * e.2.sales) := by
  refine ⟨?_, ?_, ?_⟩
  · simp only [evaluate_scenario]
    ring
  · intro e he
    simp only [evaluate_scenario, List.mem_map] at he
    obtain ⟨kv, _, rfl⟩ := he
    simp only
    ring
  · intro e he
    simp only [evaluate_scenario, List.mem_map] at he
    obtain ⟨kv, _, rfl⟩ := he
    simp only
    ring

/-- C7 counterexample: at discount fraction exactly 0.2 the strict `> 0.2`
band does not fire, so the uplift is 0.282, not the claimed 0.2538, and the
example day's evaluated sales are `100000 * 1.282 = 128200`, not
`100000 * 1.2538`. -/
theorem twenty_percent_band_counterexample :
    estimate_uplift default_coefficients "TV" "online" (20/100) none = 141/500
    ∧ (evaluate_scenario exScenario exBaseline default_coefficients none).total_sales = 128200
    ∧ ((141 : ℚ)/500 ≠ 1269/5000)
    ∧ ((128200 : ℚ) ≠ 100000 * (1 + 1269/5000)) := by
  have hc : elasticity_lookup default_coefficients "TV" "online" = 3/2 := by
    have h1 : strUpper "TV" = "TV" := by decide
    have h2 : strLower "online" = "online" := by decide
    simp [elasticity_lookup, default_coefficients, lookupKey, h1, h2]
  have hu : estimate_uplift default_coefficients "TV" "online" ((20 : ℚ)/100) none = 141/500 := by
    unfold estimate_uplift
    rw [hc]
    norm_num
  refine ⟨hu, ?_, by norm_num, by norm_num⟩
  have hb : lookupKey exBaseline.daily_projections 0 = some exProj := by
    simp [exBaseline, lookupKey]
  simp only [evaluate_scenario, exScenario, daysInRange_self, List.foldl_cons, List.foldl_nil,
    hb, Option.getD_some, evalDay, evalCell, hu]
  norm_num [exProj]

/-- C7 (amended): for a scenario with `discount_percentage = 20`, one
department and one channel, elasticity coefficient 1.5 and no context, the
estimated uplift is `0.20 * 1.5 * (1 - 0.20 * 0.3) = 0.282` (no band
dampening, since 0.2 is not strictly above 0.2), and a single covered day's
evaluated sales equal that day's baseline sales times 1.282. -/
theorem twenty_percent_uplift (coeffs : CoeffTable) (dept ch : String)
    (hc : elasticity_lookup coeffs dept ch = 3/2)
    (sc : PromoScenario) (baseline : BaselineForecast) (t : ℤ) (proj : DayProj)
    (hdep : sc.departments = [dept]) (hch : sc.channels = [ch])
    (hdisc : sc.discount_percentage = 20)
    (hr : sc.date_range = { start_date := t, end_date := t })
    (hb : lookupKey baseline.daily_projections t = some proj) :
    estimate_uplift coeffs dept ch (sc.discount_percentage / 100) none = 141/500
    ∧ (evaluate_scenario sc baseline coeffs none).total_sales = proj.sales * (641/500) := by
  have hu : estimate_uplift coeffs dept ch (sc.discount_percentage / 100) none = 141/500 := by
    rw [hdisc]
    unfold estimate_uplift
    rw [hc]
    norm_num
  refine ⟨hu, ?_⟩
  have hu20 : estimate_uplift coeffs dept ch ((20 : ℚ) / 100) none = 141/500 := by
    rw [hdisc] at hu
    exact hu
  simp only [evaluate_scenario, hr, daysInRange_self, List.foldl_cons, List.foldl_nil, hb,
    Option.getD_some, evalDay, hdep, hch, evalCell, hdisc, hu20]
  norm_num

/-- C7 witness: the amended statement instantiated at the concrete example
scenario, baseline day and default coefficient table. -/
theorem twenty_percent_uplift_witness :
    estimate_uplift default_coefficients "TV" "online"
        (exScenario.discount_percentage / 100) none = 141/500
    ∧ (evaluate_scenario exScenario exBaseline default_coefficients none).total_sales
        = exProj.sales * (641/500) :=
  twenty_percent_uplift default_coefficients "TV" "online"
    (by
      have h1 : strUpper "TV" = "TV" := by decide
      have h2 : strLower "online" = "online" := by decide
      simp [elasticity_lookup, default_coefficients, lookupKey, h1, h2])
    exScenario exBaseline 0 exProj rfl rfl rfl rfl
    (by simp [exBaseline, lookupKey])

/-- C8 counterexample: with no configuration source, the brand-compliance
check is skipped entirely — it is not recorded in `checks_passed` — while the
discount check does run against the default 25% ceiling; this refutes the
claim that every check, brand compliance included, is still performed with
engine defaults. -/
theorem brand_check_skipped_counterexample :
    lookupKey (validate_scenario none none exS8 none (none : Option Unit)).checks_passed
        "brand_compliance" = none
    ∧ lookupKey (validate_scenario none none exS8 none (none : Option Unit)).checks_passed
        "discount_limits" = some false := by
  constructor
  · norm_num [validate_scenario, discountStep, marginStep, dateStep, departmentsStep,
      channelsStep, plausibilityStep, brandStep, check_discount_limits, exS8, lookupKey]
    decide
  · norm_num [validate_scenario, discountStep, marginStep, dateStep, departmentsStep,
      channelsStep, plausibilityStep, brandStep, check_discount_limits, exS8, lookupKey]

/-- C8 (amended): with no configuration source, `validate_scenario` performs
the discount check against the default 25% ceiling and records it, performs
the margin check with the default 0.18 floor whenever a KPI is supplied, but
skips the brand-compliance check entirely (no `checks_passed` entry); and in
every returned report `is_valid` is true exactly when `issues` is empty. -/
theorem validate_defaults {α : Type} (scenario : PromoScenario) (kpi : Option ScenarioKPI)
    (r : Option α) :
    lookupKey (validate_scenario none none scenario kpi r).checks_passed "discount_limits"
        = some (decide (scenario.discount_percentage ≤ 25))
    ∧ (∀ k, kpi = some k →
        lookupKey (validate_scenario none none scenario kpi r).checks_passed "margin_thresholds"
          = some (check_margin_thresholds none k))
    ∧ lookupKey (validate_scenario none none scenario kpi r).checks_passed "brand_compliance"
        = none
    ∧ ((validate_scenario none none scenario kpi r).is_valid = true
        ↔ (validate_scenario none none scenario kpi r).issues = []) := by
  obtain ⟨di2, df2, h2⟩ :=
    marginStep_full none kpi (discountStep none scenario ⟨[], [], []⟩)
  obtain ⟨di3, df3, dc3, h3, hk3⟩ :=
    dateStep_full scenario
      (marginStep none kpi (discountStep none scenario ⟨[], [], []⟩))
  obtain ⟨di4, df4, dc4, h4, hk4⟩ :=
    departmentsStep_full scenario
      (dateStep scenario (marginStep none kpi (discountStep none scenario ⟨[], [], []⟩)))
  obtain ⟨di5, df5, dc5, h5, hk5⟩ :=
    channelsStep_full scenario
      (departmentsStep scenario
        (dateStep scenario (marginStep none kpi (discountStep none scenario ⟨[], [], []⟩))))
  obtain ⟨di6, df6, dc6, h6, hk6⟩ :=
    plausibilityStep_full kpi
      (channelsStep scenario
        (departmentsStep scenario
          (dateStep scenario (marginStep none kpi (discountStep none scenario ⟨[], [], []⟩)))))
  have hcp : (validate_scenario none none scenario kpi r).checks_passed
      = (plausibilityStep kpi
          (channelsStep scenario
            (departmentsStep scenario
              (dateStep scenario
                (marginStep none kpi (discountStep none scenario ⟨[], [], []⟩)))))).checks := rfl
  have his : (validate_scenario none none scenario kpi r).issues
      = (plausibilityStep kpi
          (channelsStep scenario
            (departmentsStep scenario
              (dateStep scenario
                (marginStep none kpi (discountStep none scenario ⟨[], [], []⟩)))))).issues := rfl
  have hiv : (validate_scenario none none scenario kpi r).is_valid
      = decide ((plausibilityStep kpi
          (channelsStep scenario
            (departmentsStep scenario
              (dateStep scenario
                (marginStep none kpi (discountStep none scenario ⟨[], [], []⟩)))))).issues.length
          = 0) := rfl
  have hChk : (validate_scenario none none scenario kpi r).checks_passed
      = ("discount_limits", check_discount_limits none scenario) ::
          ((match kpi with
            | none => ([] : List (String × Bool))
            | some k => [("margin_thresholds", check_margin_thresholds none k)])
            ++ (dc3 ++ (dc4 ++ (dc5 ++ dc6)))) := by
    rw [hcp]
    simp only [h6]
    simp only [h5]
    simp only [h4]
    simp only [h3]
    simp only [h2]
    simp only [discountStep_full]
    simp [List.append_assoc]
    cases kpi <;> rfl
  refine ⟨?_, ?_, ?_, ?_⟩
  · rw [hChk]
    simp [lookupKey, check_discount_limits]
  · intro k hk
    subst hk
    rw [hChk]
    have hne : ("discount_limits" : String) ≠ "margin_thresholds" := by decide
    simp [lookupKey, hne]
  · rw [hChk]
    apply lookupKey_eq_none
    intro kv hkv
    simp only [List.mem_cons, List.mem_append] at hkv
    rcases hkv with h | hkv
    · subst h
      exact (by decide : ("discount_limits" : String) ≠ "brand_compliance")
    rcases hkv with h | hkv
    · cases kpi with
      | none => simp at h
      | some k =>
        simp only [List.mem_singleton] at h
        subst h
        exact (by decide : ("margin_thresholds" : String) ≠ "brand_compliance")
    rcases hkv with h | hkv
    · rw [hk3 kv h]; decide
    rcases hkv with h | hkv
    · rw [hk4 kv h]; decide
    rcases hkv with h | h
    · rw [hk5 kv h]; decide
    · rcases hk6 kv h with h6a | h6a
      · rw [h6a]; decide
      · rw [h6a]; decide
  · rw [hiv, his]
    simp [List.length_eq_zero]

/-- C9: with a constraints source supplying `max_discount`, the discount
check records `discount_percentage ≤ max_discount * 100` under
`discount_limits`; in particular a scenario with a 30% discount validated
under `max_discount = 0.25` always gets `checks_passed discount_limits =
false` and non-empty `issues` and `fixes`. -/
theorem discount_limit_check (scenario : PromoScenario) (c : Constraints)
    (brand : Option BrandRules) (kpi : Option ScenarioKPI) {α : Type} (r : Option α) :
    lookupKey (validate_scenario (some c) brand scenario kpi r).checks_passed "discount_limits"
        = some (decide (scenario.discount_percentage ≤ c.max_discount * 100))
    ∧ (scenario.discount_percentage = 30 → c.max_discount = 1/4 →
        lookupKey (validate_scenario (some c) brand scenario kpi r).checks_passed
            "discount_limits" = some false
        ∧ (validate_scenario (some c) brand scenario kpi r).issues ≠ []
        ∧ (validate_scenario (some c) brand scenario kpi r).fixes ≠ []) := by
  obtain ⟨di2, df2, h2⟩ :=
    marginStep_full (some c) kpi (discountStep (some c) scenario ⟨[], [], []⟩)
  obtain ⟨di3, df3, dc3, h3, hk3⟩ :=
    dateStep_full scenario
      (marginStep (some c) kpi (discountStep (some c) scenario ⟨[], [], []⟩))
  obtain ⟨di4, df4, dc4, h4, hk4⟩ :=
    departmentsStep_full scenario
      (dateStep scenario (marginStep (some c) kpi (discountStep (some c) scenario ⟨[], [], []⟩)))
  obtain ⟨di5, df5, dc5, h5, hk5⟩ :=
    channelsStep_full scenario
      (departmentsStep scenario
        (dateStep scenario (marginStep (some c) kpi (discountStep (some c) scenario ⟨[], [], []⟩))))
  obtain ⟨di6, df6, dc6, h6, hk6⟩ :=
    plausibilityStep_full kpi
      (channelsStep scenario
        (departmentsStep scenario
          (dateStep scenario
            (marginStep (some c) kpi (discountStep (some c) scenario ⟨[], [], []⟩)))))
  obtain ⟨di7, df7, dc7, h7, hk7⟩ :=
    brandStep_full brand scenario
      (plausibilityStep kpi
        (channelsStep scenario
          (departmentsStep scenario
            (dateStep scenario
              (marginStep (some c) kpi (discountStep (some c) scenario ⟨[], [], []⟩))))))
  have hcp : (validate_scenario (some c) brand scenario kpi r).checks_passed
      = (brandStep brand scenario
          (plausibilityStep kpi
            (channelsStep scenario
              (departmentsStep scenario
                (dateStep scenario
                  (marginStep (some c) kpi
                    (discountStep (some c) scenario ⟨[], [], []⟩))))))).checks := rfl
  have his : (validate_scenario (some c) brand scenario kpi r).issues
      = (brandStep brand scenario
          (plausibilityStep kpi
            (channelsStep scenario
              (departmentsStep scenario
                (dateStep scenario
                  (marginStep (some c) kpi
                    (discountStep (some c) scenario ⟨[], [], []⟩))))))).issues := rfl
  have hfx : (validate_scenario (some c) brand scenario kpi r).fixes
      = (brandStep brand scenario
          (plausibilityStep kpi
            (channelsStep scenario
              (departmentsStep scenario
                (dateStep scenario
                  (marginStep (some c) kpi
                    (discountStep (some c) scenario ⟨[], [], []⟩))))))).fixes := rfl
  have hChk : (validate_scenario (some c) brand scenario kpi r).checks_passed
      = ("discount_limits", check_discount_limits (some c) scenario) ::
          ((match kpi with
            | none => ([] : List (String × Bool))
            | some k => [("margin_thresholds", check_margin_thresholds (some c) k)])
            ++ (dc3 ++ (dc4 ++ (dc5 ++ (dc6 ++ dc7))))) := by
    rw [hcp]
    simp only [h7]
    simp only [h6]
    simp only [h5]
    simp only [h4]
    simp only [h3]
    simp only [h2]
    simp only [discountStep_full]
    simp [List.append_assoc]
    cases kpi <;> rfl
  have hIss : (validate_scenario (some c) brand scenario kpi r).issues
      = (if check_discount_limits (some c) scenario then []
         else [Issue.discountExceedsMax scenario.discount_percentage (c.max_discount * 100)])
        ++ (di2 ++ (di3 ++ (di4 ++ (di5 ++ (di6 ++ di7))))) := by
    rw [his]
    simp only [h7]
    simp only [h6]
    simp only [h5]
    simp only [h4]
    simp only [h3]
    simp only [h2]
    simp only [discountStep_full]
    simp [List.append_assoc]
  have hFx : (validate_scenario (some c) brand scenario kpi r).fixes
      = (if check_discount_limits (some c) scenario then []
         else [FixHint.reduceDiscount (c.max_discount * 100)])
        ++ (df2 ++ (df3 ++ (df4 ++ (df5 ++ (df6 ++ df7))))) := by
    rw [hfx]
    simp only [h7]
    simp only [h6]
    simp only [h5]
    simp only [h4]
    simp only [h3]
    simp only [h2]
    simp only [discountStep_full]
    simp [List.append_assoc]
  have hhead : lookupKey (validate_scenario (some c) brand scenario kpi r).checks_passed
      "discount_limits" = some (check_discount_limits (some c) scenario) := by
    rw [hChk]
    simp [lookupKey]
  refine ⟨?_, ?_⟩
  · rw [hhead]
    simp [check_discount_limits]
  · intro hd hm
    have hfail : check_discount_limits (some c) scenario = false := by
      simp only [check_discount_limits, hd, hm, decide_eq_false_iff_not]
      norm_num
    refine ⟨?_, ?_, ?_⟩
    · rw [hhead, hfail]
    · rw [hIss, hfail]
      simp
    · rw [hFx, hfail]
      simp

/-- C10: `validate_scenario` returns identical reports for any two values
(even of different types) of its unused `rules` parameter: the checks read
only the scenario, the KPI and the configuration source's outputs. -/
theorem validate_scenario_ignores_rules {α β : Type} (constraints : Option Constraints)
    (brand_rules : Option BrandRules) (scenario : PromoScenario)
    (kpi : Option ScenarioKPI) (r₁ : Option α) (r₂ : Option β) :
    validate_scenario constraints brand_rules scenario kpi r₁
      = validate_scenario constraints brand_rules scenario kpi r₂ := rfl
